import Mathlib

/-!
Verification of the `android-wakelock` crate (`src/lib.rs`).

The crate is a JNI interop layer around Android's `PowerManager.WakeLock`
API. We shallowly embed the pure parts (the `Level` codes, the `Builder`
configuration and its flags-word computation) directly from the source, and
embed the stateful JNI boundary as explicit state passing over a `World`
record that carries the JNI pending-exception slot, the foreign wake lock's
OS-side reference count, and instrumentation recording every foreign call
that the Rust code sends across the boundary.

The foreign (out-of-scope) side — the behavior of the Java `WakeLock`
object itself — is modelled from the spec's external-interface table:
`acquire` increments the OS reference count, `release` decrements it and
throws a runtime exception when the lock is not held ("under-locked"),
`isHeld` is a pure query. The Rust-side functions (`catch_exceptions`,
`Builder::build`, `WakeLock::is_held`, `WakeLock::acquire`,
`Guard::release`, `Guard::release_one`, `impl Drop for Guard`) are
translated statement by statement from `src/lib.rs`.
-/

namespace AndroidWakelock

/-- JNI-level errors (`jni::errors::Error`), abstracted to the distinction
the source code makes: the generic `JavaException` condition versus any
other lower-level interop failure, which we carry as a description string. -/
inductive JniError where
  | javaException
  | other (desc : String)
deriving DecidableEq, Repr

/-- Display text of a JNI-level error (its `Display`/`Error` description). -/
def JniError.description : JniError → String
  | JniError.javaException => "Java exception was thrown"
  | JniError.other d => d

/-- A Java exception object, abstracted to the one thing the Rust code reads
from it: the result of `getMessage`. `none` models an exception whose
message extraction fails (null message object, or `getMessage` itself
failing at the JNI level). -/
structure JException where
  message : Option String
deriving DecidableEq, Repr

/-- The crate's boxed error type `Box<dyn std::error::Error>`, restricted to
the two ways the source constructs it: from a `String` (the extracted
exception message, `message.into()`) and from a JNI error (`e.into()`). -/
inductive Error where
  | fromString (s : String)
  | fromJni (e : JniError)
deriving DecidableEq, Repr

/-- Description (`Display`) of a boxed error: a string-backed error displays
the string itself; a wrapped JNI error displays the JNI description. -/
def Error.description : Error → String
  | Error.fromString s => s
  | Error.fromJni e => e.description

/-- The state visible through the JNI boundary: the thread's
pending-exception slot, the foreign wake lock object's OS-side reference
count, instrumentation counting the `release` calls sent to the foreign
object, outcomes of the environment-dependent JNI steps used by `build`
and `is_held` (thread attachment, `getSystemService`, `newWakeLock`), and
a record of every `newWakeLock (flags, tag)` invocation sent across. -/
structure World where
  pending : Option JException
  refCount : Nat
  releaseCalls : Nat
  attach : Except JniError Unit
  getService : Except JniError Unit
  newLock : Except JniError Unit
  newLockCalls : List (Nat × String)

/-- Translation of `catch_exceptions` (src/lib.rs:466-490): run the foreign
call `f`; on success or on a non-exception JNI error pass the outcome
through unchanged (the latter boxed by `e.into()`); on the generic
`JavaException` condition, read the pending exception
(`exception_occurred`), clear the pending state (`exception_clear`), try to
extract the message (`getMessage` + string conversion) and box it as the
error, falling back to boxing the original JNI error when extraction
fails. -/
def catch_exceptions {T : Type} (w : World) (f : World → World × Except JniError T) :
    World × Except Error T :=
  match f w with
  | (w1, Except.ok v) => (w1, Except.ok v)
  | (w1, Except.error JniError.javaException) =>
      match w1.pending with
      | some exn =>
          match exn.message with
          | some m => ({ w1 with pending := none }, Except.error (Error.fromString m))
          | none =>
              ({ w1 with pending := none },
                Except.error (Error.fromJni JniError.javaException))
      | none =>
          ({ w1 with pending := none },
            Except.error (Error.fromJni JniError.javaException))
  | (w1, Except.error e) => (w1, Except.error (Error.fromJni e))

/-- Flag constant `ACQUIRE_CAUSES_WAKEUP` (src/lib.rs:102). -/
def ACQUIRE_CAUSES_WAKEUP : Nat := 0x10000000

/-- Flag constant `ON_AFTER_RELEASE` (src/lib.rs:103). -/
def ON_AFTER_RELEASE : Nat := 0x20000000

/-- The `Level` enum (src/lib.rs:131-190), in source order. -/
inductive Level where
  | Partial
  | Full
  | ScreenBright
  | ScreenDim
deriving DecidableEq, Repr

/-- The discriminant of each level (`self.level as i32`); the values are
written exactly as in the source. All are small positive numbers, so `Nat`
represents the `i32` faithfully. -/
def Level.code : Level → Nat
  | Level.Partial => 0x00000001
  | Level.Full => 0x0000001a
  | Level.ScreenBright => 0x0000000a
  | Level.ScreenDim => 0x00000006

/-- The `Builder` struct (src/lib.rs:194-199). -/
structure Builder where
  tag : String
  level : Level
  acquire_causes_wakeup : Bool
  on_after_release : Bool
deriving DecidableEq, Repr

/-- Setter `Builder::level` (src/lib.rs:207-210); named `withLevel` because
Lean reserves the field name for the projection. -/
def Builder.withLevel (b : Builder) (level : Level) : Builder :=
  { b with level := level }

/-- Setter `Builder::acquire_causes_wakeup` (src/lib.rs:234-237). -/
def Builder.withAcquireCausesWakeup (b : Builder) (v : Bool) : Builder :=
  { b with acquire_causes_wakeup := v }

/-- Setter `Builder::on_after_release` (src/lib.rs:245-248). -/
def Builder.withOnAfterRelease (b : Builder) (v : Bool) : Builder :=
  { b with on_after_release := v }

/-- The flags-word computation inside `Builder::build` (src/lib.rs:269-277):
start from the level discriminant, then `|=` each option's bit when the
option is set. -/
def Builder.flags (b : Builder) : Nat :=
  let f0 := b.level.code
  let f1 := if b.acquire_causes_wakeup then f0 ||| ACQUIRE_CAUSES_WAKEUP else f0
  if b.on_after_release then f1 ||| ON_AFTER_RELEASE else f1

/-- The `WakeLock` handle (src/lib.rs:312-321). The `GlobalRef` to the Java
object and the `JavaVM` are opaque handles into the foreign world, which in
this embedding lives in `World`; the handle itself retains the tag. -/
structure WakeLock where
  tag : String
deriving DecidableEq, Repr

/-- Translation of `Builder::build` (src/lib.rs:251-298): attach the thread
(any JNI failure propagates boxed), resolve the power service via
`catch_exceptions`, compute the flags word, invoke `newWakeLock` with the
flags and tag via `catch_exceptions` (the invocation is recorded in the
world whether or not the foreign side then throws), and on success return
the handle. Any failing step short-circuits with the typed error. -/
def Builder.build (b : Builder) (w : World) : World × Except Error WakeLock :=
  match w.attach with
  | Except.error e => (w, Except.error (Error.fromJni e))
  | Except.ok _ =>
    match catch_exceptions w (fun w1 => (w1, w1.getService)) with
    | (w1, Except.error e) => (w1, Except.error e)
    | (w1, Except.ok _) =>
      let flags := b.flags
      match catch_exceptions w1
          (fun w2 =>
            ({ w2 with newLockCalls := w2.newLockCalls ++ [(flags, b.tag)] },
              w2.newLock)) with
      | (w2, Except.error e) => (w2, Except.error e)
      | (w2, Except.ok _) => (w2, Except.ok ⟨b.tag⟩)

/-- Constructor `WakeLock::builder` (src/lib.rs:344-351). -/
def WakeLock.builder (tag : String) : Builder :=
  { tag := tag
    level := Level.Partial
    acquire_causes_wakeup := false
    on_after_release := false }

/-- The crate-level convenience function `partial` (src/lib.rs:124-126),
renamed because its source name is a Lean keyword:
`WakeLock::builder(tag).build()`. -/
def partialLock (tag : String) (w : World) : World × Except Error WakeLock :=
  (WakeLock.builder tag).build w

/-- Modelled from the spec: the foreign `isHeld () -> boolean` call of the
external-interface table, a pure query of the outstanding-reference state
of the OS-side lock. It reads the reference count and changes nothing. -/
def callIsHeld (w : World) : World × Except JniError Bool :=
  (w, Except.ok (decide (0 < w.refCount)))

/-- Translation of `WakeLock::is_held` (src/lib.rs:355-361): attach the
current thread (failure propagates boxed), then the foreign `isHeld` query
wrapped by `catch_exceptions`. -/
def WakeLock.is_held (_wl : WakeLock) (w : World) : World × Except Error Bool :=
  match w.attach with
  | Except.error e => (w, Except.error (Error.fromJni e))
  | Except.ok _ => catch_exceptions w callIsHeld

/-- Modelled from the spec: the foreign `acquire () -> void` call, which
increments the OS reference count. -/
def callAcquire (w : World) : World × Except JniError Unit :=
  ({ w with refCount := w.refCount + 1 }, Except.ok ())

/-- Modelled from the spec: the foreign `release () -> void` call, which
decrements the OS reference count; on a lock with no outstanding reference
it throws a runtime exception (the double-release failure mode the spec
describes: "throw a foreign exception or corrupt the OS reference count").
Every invocation is counted in `releaseCalls`. -/
def callRelease (tag : String) (w : World) : World × Except JniError Unit :=
  if 0 < w.refCount then
    ({ w with refCount := w.refCount - 1, releaseCalls := w.releaseCalls + 1 },
      Except.ok ())
  else
    ({ w with releaseCalls := w.releaseCalls + 1,
              pending := some ⟨some ("WakeLock under-locked: " ++ tag)⟩ },
      Except.error JniError.javaException)

/-- The `Guard` struct (src/lib.rs:418-426): the cloned `GlobalRef` and the
thread-attachment guard are opaque handles into the `World`; the guard
retains the borrowed tag. It has no "already released" flag — the source
struct has none. -/
structure Guard where
  tag : String
deriving DecidableEq, Repr

/-- Translation of `Guard::release_one` (src/lib.rs:435-443): the foreign
`release` call wrapped by `catch_exceptions`. -/
def Guard.release_one (g : Guard) (w : World) : World × Except Error Unit :=
  catch_exceptions w (callRelease g.tag)

/-- Outcome of running a Rust destructor: normal return, or a panic with
the given panic message. -/
inductive DropOutcome where
  | normal
  | panicked (msg : String)
deriving DecidableEq, Repr

/-- Translation of `impl Drop for Guard` (src/lib.rs:455-461): call
`release_one`; on error, panic with the formatted message carrying the tag
and the error description. -/
def Guard.dropImpl (g : Guard) (w : World) : World × DropOutcome :=
  match g.release_one w with
  | (w1, Except.ok _) => (w1, DropOutcome.normal)
  | (w1, Except.error e) =>
      (w1, DropOutcome.panicked
        ("error releasing wake lock \"" ++ g.tag ++ "\" on drop: " ++ e.description))

/-- Rust semantics of the explicit `Guard::release(mut self)`
(src/lib.rs:431-433): the body runs `self.release_one()`; then, because
`self` was moved into the method and the method neither forgets it nor
disassembles it, `self` goes out of scope at the end of the body and the
`Drop` impl runs on it. The components of the result are the final world,
the `Result` computed by the body, and the outcome of the destructor (a
panic there propagates out of `release` before the `Result` can be
returned). -/
def Guard.releaseExplicit (g : Guard) (w : World) :
    World × Except Error Unit × DropOutcome :=
  let r1 := g.release_one w
  let r2 := g.dropImpl r1.1
  (r2.1, r1.2, r2.2)

/-- Translation of `WakeLock::acquire` (src/lib.rs:391-405): attach the
thread (handing the attachment to the guard), the foreign `acquire` call
wrapped by `catch_exceptions`, then return a guard carrying a clone of the
lock reference and the tag. -/
def WakeLock.acquire (wl : WakeLock) (w : World) : World × Except Error Guard :=
  match w.attach with
  | Except.error e => (w, Except.error (Error.fromJni e))
  | Except.ok _ =>
    match catch_exceptions w callAcquire with
    | (w1, Except.error e) => (w1, Except.error e)
    | (w1, Except.ok _) => (w1, Except.ok ⟨wl.tag⟩)

end AndroidWakelock

namespace AndroidWakelock

/-- Helper: the flags word depends only on the level and the two option
booleans, not on the tag; this restates the body of `Builder.flags` over
those three inputs so that concrete instances can be evaluated. -/
def flagsOf (l : Level) (a o : Bool) : Nat :=
  let f0 := l.code
  let f1 := if a then f0 ||| ACQUIRE_CAUSES_WAKEUP else f0
  if o then f1 ||| ON_AFTER_RELEASE else f1

/-- Helper: `Builder.flags` factors through `flagsOf`. -/
theorem flags_eq_flagsOf (b : Builder) :
    b.flags = flagsOf b.level b.acquire_causes_wakeup b.on_after_release :=
  rfl

/-- Helper: closed form of `Guard.release_one`. On a held lock the foreign
release succeeds and decrements the count; on an unheld lock it throws,
and `catch_exceptions` translates the thrown exception into a
string-backed error and clears the pending state. Either way exactly one
foreign release call is sent. -/
theorem release_one_eq (g : Guard) (w : World) :
    g.release_one w =
      (if 0 < w.refCount then
        ({ w with refCount := w.refCount - 1, releaseCalls := w.releaseCalls + 1 },
          Except.ok ())
      else
        ({ w with releaseCalls := w.releaseCalls + 1, pending := none },
          Except.error (Error.fromString ("WakeLock under-locked: " ++ g.tag)))) := by
  unfold Guard.release_one catch_exceptions callRelease
  by_cases h : 0 < w.refCount <;> simp [h]

end AndroidWakelock

namespace AndroidWakelock

/-- C1: the claim states that at most one release is ever sent to the
foreign wake lock per guard, on every lifecycle path including an explicit
`release()` call. The code violates this: `Guard::release(mut self)` runs
`release_one` and then `self` is dropped at the end of the method body,
running the `Drop` impl, which sends a second foreign release. On a guard
whose lock holds one OS reference, the explicit path sends two release
calls — the first succeeds and the second throws "under-locked", so
`release()` itself panics from the destructor. -/
theorem C1_explicit_release_sends_two_releases :
    ((⟨"myapp:mytag"⟩ : Guard).releaseExplicit
        (World.mk none 1 0 (Except.ok ()) (Except.ok ()) (Except.ok ()) [])).1.releaseCalls
      = 2 ∧
    ((⟨"myapp:mytag"⟩ : Guard).releaseExplicit
        (World.mk none 1 0 (Except.ok ()) (Except.ok ()) (Except.ok ()) [])).2.1
      = Except.ok () ∧
    ((⟨"myapp:mytag"⟩ : Guard).releaseExplicit
        (World.mk none 1 0 (Except.ok ()) (Except.ok ()) (Except.ok ()) [])).2.2
      = DropOutcome.panicked
          ("error releasing wake lock \"" ++ "myapp:mytag" ++ "\" on drop: "
            ++ ("WakeLock under-locked: " ++ "myapp:mytag")) :=
  ⟨rfl, rfl, rfl⟩

/-- C2: when a guard is dropped without an explicit release, the `Drop`
impl performs the same single foreign release call (`release_one`), and if
that call fails the failure is escalated to a panic whose message carries
the tag and the error description. -/
theorem C2_drop_releases_and_escalates (g : Guard) (w : World) :
    (g.dropImpl w).1 = (g.release_one w).1 ∧
    (g.dropImpl w).1.releaseCalls = w.releaseCalls + 1 ∧
    (∀ e : Error, (g.release_one w).2 = Except.error e →
      (g.dropImpl w).2 = DropOutcome.panicked
        ("error releasing wake lock \"" ++ g.tag ++ "\" on drop: " ++ e.description)) ∧
    ((g.release_one w).2 = Except.ok () → (g.dropImpl w).2 = DropOutcome.normal) := by
  unfold Guard.dropImpl
  rw [release_one_eq]
  by_cases h : 0 < w.refCount <;> simp [h, Error.description]

/-- C2 witness: dropping a guard over an unheld lock sends the release,
which throws, and the destructor panics with the tag and the translated
error text. -/
theorem C2_drop_releases_and_escalates_witness :
    ((⟨"t"⟩ : Guard).dropImpl
        (World.mk none 0 0 (Except.ok ()) (Except.ok ()) (Except.ok ()) [])).2
      = DropOutcome.panicked
          ("error releasing wake lock \"" ++ "t" ++ "\" on drop: "
            ++ Error.description (Error.fromString ("WakeLock under-locked: " ++ "t"))) :=
  (C2_drop_releases_and_escalates ⟨"t"⟩
      (World.mk none 0 0 (Except.ok ()) (Except.ok ()) (Except.ok ()) [])).2.2.1
    (Error.fromString ("WakeLock under-locked: " ++ "t")) rfl

/-- C3: when the wrapped foreign call fails with the generic
`JavaException` condition, `catch_exceptions` clears the pending-exception
state and returns an error whose description is exactly the exception's
message text; if message extraction fails (no message available), the
returned error carries the original lower-level JNI description instead —
and the pending state is still cleared. -/
theorem C3_exception_translation {T : Type} (f : World → World × Except JniError T)
    (w w1 : World) (hf : f w = (w1, Except.error JniError.javaException)) :
    (∀ m : String, w1.pending = some ⟨some m⟩ →
      catch_exceptions w f
        = ({ w1 with pending := none }, Except.error (Error.fromString m)) ∧
      (Error.fromString m).description = m) ∧
    (w1.pending = some ⟨none⟩ →
      catch_exceptions w f
        = ({ w1 with pending := none },
            Except.error (Error.fromJni JniError.javaException)) ∧
      (Error.fromJni JniError.javaException).description
        = JniError.description JniError.javaException) := by
  constructor
  · intro m hm
    exact ⟨by simp [catch_exceptions, hf, hm], rfl⟩
  · intro hm
    exact ⟨by simp [catch_exceptions, hf, hm], rfl⟩

/-- C3 witness: a foreign call that throws with message "boom" yields an
error describing "boom" and the pending-exception slot is cleared. -/
theorem C3_exception_translation_witness :
    catch_exceptions
        (World.mk (some ⟨some "boom"⟩) 0 0 (Except.ok ()) (Except.ok ()) (Except.ok ()) [])
        (fun w => (w, (Except.error JniError.javaException : Except JniError Unit)))
      = (World.mk none 0 0 (Except.ok ()) (Except.ok ()) (Except.ok ()) [],
          Except.error (Error.fromString "boom")) ∧
    (Error.fromString "boom").description = "boom" :=
  (C3_exception_translation
      (fun w => (w, (Except.error JniError.javaException : Except JniError Unit)))
      (World.mk (some ⟨some "boom"⟩) 0 0 (Except.ok ()) (Except.ok ()) (Except.ok ()) [])
      (World.mk (some ⟨some "boom"⟩) 0 0 (Except.ok ()) (Except.ok ()) (Except.ok ()) [])
      rfl).1 "boom" rfl

/-- C4: `catch_exceptions` passes a successful value through unchanged, and
passes any failure other than the thrown-exception condition through as the
lower-level error, unchanged in description and without touching the
world. -/
theorem C4_passthrough {T : Type} (f : World → World × Except JniError T)
    (w w1 : World) :
    (∀ v : T, f w = (w1, Except.ok v) → catch_exceptions w f = (w1, Except.ok v)) ∧
    (∀ e : JniError, e ≠ JniError.javaException → f w = (w1, Except.error e) →
      catch_exceptions w f = (w1, Except.error (Error.fromJni e)) ∧
      (Error.fromJni e).description = e.description) := by
  constructor
  · intro v hf
    simp [catch_exceptions, hf]
  · intro e he hf
    cases e with
    | javaException => exact absurd rfl he
    | other d => exact ⟨by simp [catch_exceptions, hf], rfl⟩

/-- C4 witness: a successful call and a non-exception failure both pass
through `catch_exceptions` unchanged. -/
theorem C4_passthrough_witness :
    catch_exceptions
        (World.mk none 0 0 (Except.ok ()) (Except.ok ()) (Except.ok ()) [])
        (fun w => (w, Except.ok (5 : Nat)))
      = (World.mk none 0 0 (Except.ok ()) (Except.ok ()) (Except.ok ()) [],
          Except.ok 5) ∧
    catch_exceptions
        (World.mk none 0 0 (Except.ok ()) (Except.ok ()) (Except.ok ()) [])
        (fun w => (w, (Except.error (JniError.other "attach failed") : Except JniError Unit)))
      = (World.mk none 0 0 (Except.ok ()) (Except.ok ()) (Except.ok ()) [],
          Except.error (Error.fromJni (JniError.other "attach failed"))) :=
  ⟨(C4_passthrough (fun w => (w, Except.ok (5 : Nat)))
      (World.mk none 0 0 (Except.ok ()) (Except.ok ()) (Except.ok ()) [])
      (World.mk none 0 0 (Except.ok ()) (Except.ok ()) (Except.ok ()) [])).1 5 rfl,
   ((C4_passthrough
      (fun w => (w, (Except.error (JniError.other "attach failed") : Except JniError Unit)))
      (World.mk none 0 0 (Except.ok ()) (Except.ok ()) (Except.ok ()) [])
      (World.mk none 0 0 (Except.ok ()) (Except.ok ()) (Except.ok ()) [])).2
      (JniError.other "attach failed") (by simp) rfl).1⟩

/-- C5: the flags word computed by `build` is the level code bitwise-ORed
with `ACQUIRE_CAUSES_WAKEUP` exactly when that option is set and with
`ON_AFTER_RELEASE` exactly when that option is set; with both options off
it equals the raw level code, and with both on both masks are ORed in with
no interference: masking the flags word back out recovers the level code
and each option bit. -/
theorem C5_flags_word (b : Builder) :
    b.flags = b.level.code
        ||| (cond b.acquire_causes_wakeup ACQUIRE_CAUSES_WAKEUP 0)
        ||| (cond b.on_after_release ON_AFTER_RELEASE 0) ∧
    (Builder.mk b.tag b.level false false).flags = b.level.code ∧
    (Builder.mk b.tag b.level true true).flags
      = b.level.code ||| ACQUIRE_CAUSES_WAKEUP ||| ON_AFTER_RELEASE ∧
    (Builder.mk b.tag b.level true true).flags &&& 0x0FFFFFFF = b.level.code ∧
    (Builder.mk b.tag b.level true true).flags &&& ACQUIRE_CAUSES_WAKEUP
      = ACQUIRE_CAUSES_WAKEUP ∧
    (Builder.mk b.tag b.level true true).flags &&& ON_AFTER_RELEASE
      = ON_AFTER_RELEASE := by
  obtain ⟨t, l, a, o⟩ := b
  simp only [flags_eq_flagsOf]
  cases l <;> cases a <;> cases o <;> decide

/-- C6: the level codes and option bit constants equal the OS-defined
values exactly. -/
theorem C6_constants_match_os_values :
    Level.code Level.Partial = 0x01 ∧
    Level.code Level.Full = 0x1a ∧
    Level.code Level.ScreenDim = 0x06 ∧
    Level.code Level.ScreenBright = 0x0a ∧
    ACQUIRE_CAUSES_WAKEUP = 0x10000000 ∧
    ON_AFTER_RELEASE = 0x20000000 := by
  decide

/-- C7: `WakeLock::builder(tag)` yields a configuration with the given tag,
level `Partial`, and both option flags false. -/
theorem C7_builder_defaults (tag : String) :
    (WakeLock.builder tag).tag = tag ∧
    (WakeLock.builder tag).level = Level.Partial ∧
    (WakeLock.builder tag).acquire_causes_wakeup = false ∧
    (WakeLock.builder tag).on_after_release = false :=
  ⟨rfl, rfl, rfl, rfl⟩

/-- C8: each builder setter is a pure functional update, setting exactly
its own field and leaving every other field unchanged. -/
theorem C8_setters_frame (b : Builder) (l : Level) (v : Bool) :
    (b.withLevel l).level = l ∧
    (b.withLevel l).tag = b.tag ∧
    (b.withLevel l).acquire_causes_wakeup = b.acquire_causes_wakeup ∧
    (b.withLevel l).on_after_release = b.on_after_release ∧
    (b.withAcquireCausesWakeup v).acquire_causes_wakeup = v ∧
    (b.withAcquireCausesWakeup v).tag = b.tag ∧
    (b.withAcquireCausesWakeup v).level = b.level ∧
    (b.withAcquireCausesWakeup v).on_after_release = b.on_after_release ∧
    (b.withOnAfterRelease v).on_after_release = v ∧
    (b.withOnAfterRelease v).tag = b.tag ∧
    (b.withOnAfterRelease v).level = b.level ∧
    (b.withOnAfterRelease v).acquire_causes_wakeup = b.acquire_causes_wakeup :=
  ⟨rfl, rfl, rfl, rfl, rfl, rfl, rfl, rfl, rfl, rfl, rfl, rfl⟩

/-- C9: `is_held` is read-only and idempotent: it leaves the world
unchanged, and an immediately repeated call (no intervening acquire or
release) returns the same answer. -/
theorem C9_is_held_readonly_idempotent (wl : WakeLock) (w : World) :
    (wl.is_held w).1 = w ∧
    (wl.is_held ((wl.is_held w).1)).2 = (wl.is_held w).2 := by
  unfold WakeLock.is_held
  cases h : w.attach <;> simp [h, catch_exceptions, callIsHeld]

/-- C10: the convenience function `partial(tag)` is equivalent to
`WakeLock::builder(tag).level(Level::Partial).build()`: on every world the
two pipelines return the same result, success or failure alike. -/
theorem C10_convenience_equiv_builder_chain (tag : String) (w : World) :
    partialLock tag w = ((WakeLock.builder tag).withLevel Level.Partial).build w :=
  rfl

end AndroidWakelock
